import Mathlib

/-!
# Verification of the sleeper_py cache / join / report layer

Shallow embedding of `bin/sleeper.py` (Sleeper fantasy-football TUI):

* the disk-backed JSON cache (`load_cache`, `save_cache`, `api_get`),
* the staleness check (`SleeperTUI._cache_is_stale`),
* league discovery filtering (`LeagueLookupScreen._search_leagues`, step 3/4),
* player-name formatting (the two distinct inner `format_player_name`
  closures, in `show_rosters` and in `show_matchups`),
* matchup grouping and pairing (`SleeperTUI.show_matchups`).

Python dicts holding JSON are modelled by an inductive `Json` type; the disk
is a partial map from cache keys to file contents, where a file either holds
a JSON document or is corrupt (unparseable); `json.dump` followed by
`json.load` of a JSON document is the identity, which the model reflects by
storing the parsed document. The network (`requests.get` + `raise_for_status`
 + `.json()`) is a parameter `net : String → Except String Json`: `.ok` is a
successful response body, `.error` a non-success status or transport failure.
-/

namespace Sleeper

/-- JSON values, as produced by `json.load` / `response.json()`.
Object keys are strings (as in any JSON document). -/
inductive Json where
  | null : Json
  | bool (b : Bool) : Json
  | num (n : Int) : Json
  | str (s : String) : Json
  | arr (elems : List Json) : Json
  | obj (fields : List (String × Json)) : Json

/-- Python truthiness of a JSON value: `None`, `False`, `0`, `""`, `[]`, `{}`
are falsy, everything else truthy.  This is what `if cached and not force:`
evaluates on the loaded payload in `api_get`. -/
def Json.truthy : Json → Bool
  | .null => false
  | .bool b => b
  | .num n => n != 0
  | .str s => !s.isEmpty
  | .arr elems => !elems.isEmpty
  | .obj fields => !fields.isEmpty

/-- Contents of one file under `cache/`: either a JSON document (any file
written by `save_cache`, which `json.dump`s the payload) or corrupt bytes
that `json.load` fails to parse (load_cache's bare `except` path). -/
inductive FileData where
  | json (v : Json) : FileData
  | corrupt : FileData

/-- The `cache/` directory: a partial map from cache key (the `name` passed
to `cache_path`, i.e. the file stem) to the file's contents. -/
structure CacheState where
  files : String → Option FileData

/-- The empty `cache/` directory. -/
def CacheState.empty : CacheState := ⟨fun _ => none⟩

/-- `load_cache(name)`: if the file exists, parse it, returning `None` on a
parse failure (bare `except: return None`); if the file does not exist the
function falls through and returns `None`. -/
def load_cache (st : CacheState) (name : String) : Option Json :=
  match st.files name with
  | none => none
  | some (.json v) => some v
  | some .corrupt => none

/-- `save_cache(name, data)`: overwrite `cache/<name>.json` with the dumped
payload. -/
def save_cache (st : CacheState) (name : String) (data : Json) : CacheState :=
  ⟨fun n => if n = name then some (.json data) else st.files n⟩

/-- Result of one `api_get` call: the returned value or the propagated
exception, the cache directory afterwards, and how many network requests
were issued during the call. -/
structure ApiResult where
  value : Except String Json
  state : CacheState
  networkCalls : Nat

/-- The `fetch(url)` path of `api_get`, inlined: one `requests.get`; on
success the body is saved to the cache and returned, on failure
(`raise_for_status` or transport error) the exception propagates and the
cache is not written. -/
def apiFetch (net : String → Except String Json) (st : CacheState)
    (name url : String) : ApiResult :=
  match net url with
  | .ok data => { value := .ok data, state := save_cache st name data, networkCalls := 1 }
  | .error e => { value := .error e, state := st, networkCalls := 1 }

/-- `api_get(name, url, force)`:
```
cached = load_cache(name)
if cached and not force:
    return cached
data = fetch(url)
save_cache(name, data)
return data
```
Note the guard tests the *truthiness* of the loaded payload, not its mere
presence. -/
def api_get (net : String → Except String Json) (st : CacheState)
    (name url : String) (force : Bool) : ApiResult :=
  match load_cache st name with
  | some v =>
      if v.truthy && !force then
        { value := .ok v, state := st, networkCalls := 0 }
      else apiFetch net st name url
  | none => apiFetch net st name url

/-- `SleeperTUI._cache_is_stale`: absent cache file is stale; otherwise the
file is stale iff `(time.time() - mtime) / (60*60*24) > 6`.  Timestamps are
modelled as rationals (seconds). `mtime = none` models a missing file. -/
def cache_is_stale (mtime : Option ℚ) (now : ℚ) : Bool :=
  match mtime with
  | none => true
  | some t => decide ((now - t) / (60 * 60 * 24) > 6)

/-! ## League discovery (`LeagueLookupScreen._search_leagues`, steps 3–4) -/

/-- One league record as returned by `user_leagues`; only the `name` field is
read by the name filter (`lg["name"]`). -/
structure League where
  name : String
  deriving DecidableEq, Repr

/-- Python's `str.lower()` (per-character lowercasing; ASCII-faithful). -/
def lowerStr (s : String) : String := String.mk (s.data.map Char.toLower)

/-- Python's substring containment `needle in hay` on strings. -/
def strIn (needle hay : String) : Bool := decide (needle.data <:+: hay.data)

/-- Outcome of the name-filtering step of `_search_leagues`: either the
"No matching leagues found" status message (a normal report, not an
exception) or the ordered list of found handed to
`_show_search_results`. -/
inductive SearchOutcome where
  | noMatches : SearchOutcome
  | results (found : List League) : SearchOutcome
  deriving DecidableEq, Repr

/-- Steps 3–4 of `_search_leagues`:
```
name_query = league_name.lower()
found = [lg for lg in leagues if name_query in lg["name"].lower()]
if not found:
    status.update("No matching leagues found"); return
self._show_search_results(found)
``` -/
def search_leagues_filter (leagues : List League) (league_name : String) :
    SearchOutcome :=
  let name_query := lowerStr league_name
  let found := leagues.filter (fun lg => strIn name_query (lowerStr lg.name))
  if found.isEmpty then .noMatches else .results found

/-- The spec's reading of the filter predicate: the league name contains the
query as a case-insensitive substring, i.e. some contiguous run of the name's
characters equals the query up to case. -/
def specNameMatch (query name : String) : Prop :=
  ∃ t : List Char, t <:+: name.data ∧ t.map Char.toLower = query.data.map Char.toLower

/-! ## Player-name formatting -/

/-- One entry of the NFL player directory (`players_data[player_id]`); the
code reads these fields with `p.get(field, "")`-style defaults, so absent
JSON fields are modelled as `""`. -/
structure Player where
  first_name : String
  last_name : String
  position : String
  deriving DecidableEq, Repr

/-- Python `s[0]` on a string, as a one-character string (in the code it is
only evaluated under a truthiness guard, so `s` is nonempty there). -/
def str1 (s : String) : String := String.mk (s.data.take 1)

/-- The inner `format_player_name` of `show_matchups`:
```
if player_id in players_data:
    p = players_data[player_id]
    first = p.get("first_name", "")[0] if p.get("first_name") else ""
    last = p.get("last_name", "")
    pos = p.get("position", "")
    return f"{pos}: {first}. {last}" if first and last else player_id
if isinstance(player_id, str) and len(player_id) <= 3:
    return f"D/ST: {player_id}"
return player_id
```
(`player_id` is always a string here, so the `isinstance` test holds). -/
def format_player_name (players_data : String → Option Player)
    (player_id : String) : String :=
  match players_data player_id with
  | some p =>
      let first := if p.first_name = "" then "" else str1 p.first_name
      let last := p.last_name
      let pos := p.position
      if first ≠ "" ∧ last ≠ "" then pos ++ ": " ++ first ++ ". " ++ last
      else player_id
  | none =>
      if player_id.length ≤ 3 then "D/ST: " ++ player_id else player_id

/-- The inner `format_player_name` of `show_rosters` — note it differs from
the matchup one: no position prefix and no defense branch:
```
if player_id in players_data:
    p = players_data[player_id]
    first = p.get("first_name", "")[0] if p.get("first_name") else ""
    last = p.get("last_name", "")
    return f"{first}. {last}" if first and last else player_id
return player_id
``` -/
def roster_format_player_name (players_data : String → Option Player)
    (player_id : String) : String :=
  match players_data player_id with
  | some p =>
      let first := if p.first_name = "" then "" else str1 p.first_name
      let last := p.last_name
      if first ≠ "" ∧ last ≠ "" then first ++ ". " ++ last
      else player_id
  | none => player_id

/-- The per-roster player-name list built by `show_rosters`:
`player_names = [format_player_name(pid) for pid in r.get("players", [])]`. -/
def roster_player_names (players_data : String → Option Player)
    (players : List String) : List String :=
  players.map (roster_format_player_name players_data)

/-! ## Matchup grouping and pairing (`show_matchups`) -/

/-- One record of the week's matchup list; `matchup_id` is read with
`m.get("matchup_id")`, so a record lacking the field yields `None`
(modelled `none`). Only the fields the pairing logic touches are kept. -/
structure MatchupRec where
  roster_id : Nat
  matchup_id : Option Nat
  deriving DecidableEq, Repr

/-- Append record `m` to the group keyed `key` in an insertion-ordered
association list, creating the group at the end if the key is new — exactly
the behaviour of the Python dict in
```
if matchup_id not in matchups_by_id:
    matchups_by_id[matchup_id] = []
matchups_by_id[matchup_id].append(m)
``` -/
def addToGroup (groups : List (Option Nat × List MatchupRec))
    (key : Option Nat) (m : MatchupRec) : List (Option Nat × List MatchupRec) :=
  match groups with
  | [] => [(key, [m])]
  | (k, ts) :: rest =>
      if k = key then (k, ts ++ [m]) :: rest
      else (k, ts) :: addToGroup rest key m

/-- The grouping loop of `show_matchups`: fold the week's records into the
insertion-ordered dict `matchups_by_id`. -/
def matchups_by_id (data : List MatchupRec) :
    List (Option Nat × List MatchupRec) :=
  data.foldl (fun groups m => addToGroup groups m.matchup_id m) []

/-- First-match association lookup in the grouped dict
(`matchups_by_id[k]`; keys are unique by construction). -/
def lookupGroup (groups : List (Option Nat × List MatchupRec))
    (key : Option Nat) : Option (List MatchupRec) :=
  match groups with
  | [] => none
  | (k, ts) :: rest => if k = key then some ts else lookupGroup rest key

/-- The rendering loop of `show_matchups`, at the granularity of which
head-to-head pairs get a block of output:
```
for matchup_id, teams in matchups_by_id.items():
    if len(teams) != 2:
        continue
    team1, team2 = teams[0], teams[1]
    ... render the pair ...
```
Each rendered block is represented by its `(team1, team2)` pair. -/
def renderGroups : List (Option Nat × List MatchupRec) →
    List (MatchupRec × MatchupRec)
  | [] => []
  | (_, teams) :: rest =>
      match teams with
      | [t1, t2] => (t1, t2) :: renderGroups rest
      | _ => renderGroups rest

/-- `show_matchups`' pairing pipeline: group the week's records by
`matchup_id`, then render exactly the two-record groups. -/
def show_matchups_pairs (data : List MatchupRec) :
    List (MatchupRec × MatchupRec) :=
  renderGroups (matchups_by_id data)

/-! ## Concrete fixtures used by counterexamples and witnesses -/

/-- A network that answers every URL with `null`. -/
def constNet : String → Except String Json := fun _ => .ok .null

/-- A network on which every request fails. -/
def errNet : String → Except String Json := fun _ => .error "boom"

/-- A cache directory holding the payload `[]` (an empty JSON array — a
perfectly valid cached value, e.g. an empty matchup week) under key `"k"`. -/
def emptyArrState : CacheState := save_cache CacheState.empty "k" (.arr [])

/-- A cache directory whose file for key `"k"` is corrupt. -/
def corruptState : CacheState :=
  ⟨fun n => if n = "k" then some .corrupt else none⟩

/-! ## Theorems -/

/-- C9: cache round-trip — saving a payload under a key and loading that key
back (with no intervening write) yields exactly that payload. -/
theorem save_load_roundtrip (st : CacheState) (name : String) (data : Json) :
    load_cache (save_cache st name data) name = some data := by
  simp [load_cache, save_cache]

/-- C1 (amended): read-through policy of `api_get`. If `force` is false and
the cache holds a *truthy* payload for the key, that payload is returned
verbatim with no network request. If `force` is true, or no entry exists, or
the stored payload is falsy (e.g. `[]`, `{}`, `null`), a network request is
issued and on success its result overwrites the cache entry before being
returned. -/
theorem api_get_read_through (net : String → Except String Json)
    (st : CacheState) (name url : String) :
    (∀ v, load_cache st name = some v → v.truthy = true →
      api_get net st name url false =
        { value := .ok v, state := st, networkCalls := 0 }) ∧
    (∀ d force, net url = .ok d →
      (force = true ∨ load_cache st name = none ∨
        ∃ v, load_cache st name = some v ∧ v.truthy = false) →
      api_get net st name url force =
        { value := .ok d, state := save_cache st name d, networkCalls := 1 }) := by
  constructor
  · intro v hv ht
    simp [api_get, hv, ht]
  · intro d force hd hcond
    rcases hcond with hf | hn | ⟨v, hv, ht⟩
    · subst hf
      cases hl : load_cache st name <;>
        simp [api_get, hl, apiFetch, hd]
    · simp [api_get, hn, apiFetch, hd]
    · simp [api_get, hv, ht, apiFetch, hd]

/-- C1 witness: on a cache holding the truthy payload `{"a": null}` under
`"k"`, a non-forced `api_get` returns it verbatim with zero network calls. -/
theorem api_get_read_through_witness :
    api_get constNet (save_cache CacheState.empty "k" (.obj [("a", .null)]))
        "k" "u" false =
      { value := .ok (.obj [("a", .null)]),
        state := save_cache CacheState.empty "k" (.obj [("a", .null)]),
        networkCalls := 0 } :=
  (api_get_read_through constNet
      (save_cache CacheState.empty "k" (.obj [("a", .null)])) "k" "u").1
    (.obj [("a", .null)]) (by rfl) (by rfl)

/-- C1 counterexample: the claim says a mere *existing* cache entry with
`force=false` is returned with no network request; but `api_get` tests
truthiness, so an existing entry holding `[]` is ignored and a network
request is issued. -/
theorem api_get_read_through_counterexample :
    emptyArrState.files "k" = some (.json (.arr [])) ∧
    (api_get constNet emptyArrState "k" "u" false).networkCalls = 1 := by
  exact ⟨rfl, rfl⟩

/-- C7: when the network fetch fails, `api_get` propagates the error to the
caller — no fallback to a cached payload, a single request (no retry) — and
the entire cache directory, in particular the entry for the key, is left
unchanged. (The hypothesis `hmiss` delimits the cases in which a fetch is
issued at all: forced, or no truthy cache hit.) -/
theorem api_get_error_propagation (net : String → Except String Json)
    (st : CacheState) (name url : String) (force : Bool) (e : String)
    (herr : net url = .error e)
    (hmiss : force = true ∨ load_cache st name = none ∨
      ∃ v, load_cache st name = some v ∧ v.truthy = false) :
    api_get net st name url force =
      { value := .error e, state := st, networkCalls := 1 } := by
  rcases hmiss with hf | hn | ⟨v, hv, ht⟩
  · subst hf
    cases hl : load_cache st name <;>
      simp [api_get, hl, apiFetch, herr]
  · simp [api_get, hn, apiFetch, herr]
  · simp [api_get, hv, ht, apiFetch, herr]

/-- C7 witness: a failing fetch on a cold cache returns the error and leaves
the empty cache directory untouched. -/
theorem api_get_error_propagation_witness :
    api_get errNet CacheState.empty "k" "u" false =
      { value := .error "boom", state := CacheState.empty, networkCalls := 1 } :=
  api_get_error_propagation errNet CacheState.empty "k" "u" false "boom"
    (by rfl) (Or.inr (Or.inl (by rfl)))

/-- C8: a stored file that exists but fails to parse loads as absent — never
a fatal error — and the subsequent read-through call issues exactly one live
fetch and returns the same value as on a cold cache. -/
theorem load_cache_corrupt_is_miss (st : CacheState) (name : String)
    (h : st.files name = some .corrupt) :
    load_cache st name = none ∧
    ∀ net url force,
      api_get net st name url force = apiFetch net st name url ∧
      (api_get net st name url force).networkCalls = 1 ∧
      (api_get net st name url force).value =
        (api_get net CacheState.empty name url force).value := by
  have hload : load_cache st name = none := by simp [load_cache, h]
  refine ⟨hload, fun net url force => ?_⟩
  have hcold : load_cache CacheState.empty name = none := by
    simp [load_cache, CacheState.empty]
  refine ⟨by simp [api_get, hload], ?_, ?_⟩
  · cases hr : net url <;> simp [api_get, hload, apiFetch, hr]
  · cases hr : net url <;> simp [api_get, hload, hcold, apiFetch, hr]

/-- C8 witness: loading the corrupt entry `"k"` returns absent. -/
theorem load_cache_corrupt_is_miss_witness :
    load_cache corruptState "k" = none :=
  (load_cache_corrupt_is_miss corruptState "k" (by rfl)).1

/-- C5: staleness classification — an absent cache file is stale; a present
file is stale iff its age `now - t` exceeds 6 days (518400 seconds); at
exactly 6 days of age and below it is not stale. -/
theorem cache_is_stale_spec (now t : ℚ) :
    cache_is_stale none now = true ∧
    (cache_is_stale (some t) now = true ↔ 6 * (60 * 60 * 24) < now - t) ∧
    (now - t ≤ 6 * (60 * 60 * 24) → cache_is_stale (some t) now = false) := by
  have hpos : (0 : ℚ) < 60 * 60 * 24 := by norm_num
  have hiff : cache_is_stale (some t) now = true ↔
      6 * (60 * 60 * 24) < now - t := by
    simp only [cache_is_stale, decide_eq_true_eq, gt_iff_lt, lt_div_iff₀ hpos]
  refine ⟨rfl, hiff, fun h => ?_⟩
  cases hb : cache_is_stale (some t) now with
  | false => rfl
  | true => exact absurd (hiff.mp hb) (not_lt.mpr h)

/-- C5 witness: at age exactly 6 days (518400 s), the cache is not stale. -/
theorem cache_is_stale_spec_witness :
    cache_is_stale (some 0) 518400 = false :=
  (cache_is_stale_spec 518400 0).2.2 (by norm_num)

/-! ### Matchup grouping and pairing -/

/-- `renderGroups` keeps exactly the two-record groups, as their pair, in
group order. -/
theorem renderGroups_eq_filterMap (gs : List (Option Nat × List MatchupRec)) :
    renderGroups gs = gs.filterMap (fun g =>
      match g.2 with
      | [t1, t2] => some (t1, t2)
      | _ => none) := by
  induction gs with
  | nil => rfl
  | cons g rest ih =>
      obtain ⟨k, teams⟩ := g
      match teams with
      | [] => simpa [renderGroups] using ih
      | [t] => simpa [renderGroups] using ih
      | [t1, t2] => simp [renderGroups, ih]
      | t1 :: t2 :: t3 :: ts => simpa [renderGroups] using ih

/-- The number of rendered pairs equals the number of groups of size
exactly 2. -/
theorem renderGroups_length (gs : List (Option Nat × List MatchupRec)) :
    (renderGroups gs).length =
      (gs.filter (fun g => g.2.length == 2)).length := by
  induction gs with
  | nil => rfl
  | cons g rest ih =>
      obtain ⟨k, teams⟩ := g
      match teams with
      | [] => simpa [renderGroups, List.filter_cons] using ih
      | [t] => simpa [renderGroups, List.filter_cons] using ih
      | [t1, t2] => simpa [renderGroups, List.filter_cons] using ih
      | t1 :: t2 :: t3 :: ts =>
          simpa [renderGroups, List.filter_cons] using ih

/-- A concrete week whose groups (by `matchup_id`) have sizes 2, 2, 1, 2. -/
def week2212 : List MatchupRec :=
  [⟨1, some 1⟩, ⟨2, some 1⟩, ⟨3, some 2⟩, ⟨4, some 2⟩,
   ⟨5, some 3⟩, ⟨6, some 4⟩, ⟨7, some 4⟩]

/-- C2: `show_matchups` partitions the week's records by `matchup_id` and
renders exactly the groups containing exactly two records as head-to-head
pairs; any other group size yields no output (and no error — the function is
total). A week with group sizes {2,2,1,2} yields exactly 3 rendered
matchups. -/
theorem show_matchups_pairing (data : List MatchupRec) :
    show_matchups_pairs data = (matchups_by_id data).filterMap (fun g =>
      match g.2 with
      | [t1, t2] => some (t1, t2)
      | _ => none) ∧
    (show_matchups_pairs data).length =
      ((matchups_by_id data).filter (fun g => g.2.length == 2)).length ∧
    (show_matchups_pairs week2212).length = 3 :=
  ⟨renderGroups_eq_filterMap _, renderGroups_length _, by decide⟩

/-- Appending a record to its group: the group at that key gains the record
at its end (the group is created when absent). -/
theorem lookupGroup_addToGroup_self
    (groups : List (Option Nat × List MatchupRec)) (k : Option Nat)
    (m : MatchupRec) :
    lookupGroup (addToGroup groups k m) k =
      some ((lookupGroup groups k).getD [] ++ [m]) := by
  induction groups with
  | nil => simp [addToGroup, lookupGroup]
  | cons g rest ih =>
      obtain ⟨k', ts⟩ := g
      by_cases h : k' = k
      · subst h
        simp [addToGroup, lookupGroup]
      · simp [addToGroup, lookupGroup, h, ih]

/-- Appending a record to its group leaves every other group unchanged. -/
theorem lookupGroup_addToGroup_other
    (groups : List (Option Nat × List MatchupRec)) (key k : Option Nat)
    (m : MatchupRec) (h : k ≠ key) :
    lookupGroup (addToGroup groups key m) k = lookupGroup groups k := by
  induction groups with
  | nil => simp [addToGroup, lookupGroup, Ne.symm h]
  | cons g rest ih =>
      obtain ⟨k', ts⟩ := g
      by_cases hk : k' = key
      · subst hk
        simp [addToGroup, lookupGroup, Ne.symm h]
      · simp [addToGroup, lookupGroup, hk, ih]

/-- Invariant of the grouping fold: the group at key `k` after folding
`data` onto `groups` is the group before, extended by exactly the records of
`data` whose `matchup_id` is `k`, in input order. -/
theorem lookupGroup_foldl (data : List MatchupRec) :
    ∀ (groups : List (Option Nat × List MatchupRec)) (k : Option Nat),
      lookupGroup (data.foldl (fun gs m => addToGroup gs m.matchup_id m) groups) k =
        match lookupGroup groups k with
        | some ts => some (ts ++ data.filter (fun m => m.matchup_id == k))
        | none =>
            if (data.filter (fun m => m.matchup_id == k)).isEmpty then none
            else some (data.filter (fun m => m.matchup_id == k)) := by
  induction data with
  | nil =>
      intro groups k
      cases h : lookupGroup groups k <;> simp [h]
  | cons m rest ih =>
      intro groups k
      rw [List.foldl_cons, ih (addToGroup groups m.matchup_id m) k]
      by_cases hk : m.matchup_id = k
      · subst hk
        rw [lookupGroup_addToGroup_self]
        cases h : lookupGroup groups m.matchup_id <;>
          simp [h, List.filter_cons]
      · rw [lookupGroup_addToGroup_other _ _ _ _ (Ne.symm hk)]
        have : (m.matchup_id == k) = false := by simp [hk]
        rw [List.filter_cons, this]
        simp

/-- The group of `matchups_by_id` at key `k` is exactly the sublist of the
week's records whose `matchup_id` is `k` (absent when there are none). -/
theorem lookupGroup_matchups_by_id (data : List MatchupRec) (k : Option Nat) :
    lookupGroup (matchups_by_id data) k =
      if (data.filter (fun m => m.matchup_id == k)).isEmpty then none
      else some (data.filter (fun m => m.matchup_id == k)) := by
  have h := lookupGroup_foldl data [] k
  simpa [matchups_by_id, lookupGroup] using h

/-- A successful group lookup is a member of the grouped list. -/
theorem mem_of_lookupGroup (groups : List (Option Nat × List MatchupRec))
    (k : Option Nat) (ts : List MatchupRec)
    (h : lookupGroup groups k = some ts) : (k, ts) ∈ groups := by
  induction groups with
  | nil => simp [lookupGroup] at h
  | cons g rest ih =>
      obtain ⟨k', ts'⟩ := g
      by_cases hk : k' = k
      · subst hk
        have hts : ts' = ts := by simpa [lookupGroup] using h
        subst hts
        exact List.mem_cons_self _ _
      · simp only [lookupGroup, if_neg hk] at h
        exact List.mem_cons_of_mem _ (ih h)

/-- Any two-record group present in the grouped list is rendered as its
pair. -/
theorem mem_renderGroups (groups : List (Option Nat × List MatchupRec))
    (k : Option Nat) (t1 t2 : MatchupRec)
    (h : (k, [t1, t2]) ∈ groups) : (t1, t2) ∈ renderGroups groups := by
  rw [renderGroups_eq_filterMap]
  exact List.mem_filterMap.mpr ⟨(k, [t1, t2]), h, rfl⟩

/-- C10: every record whose `matchup_id` is absent lands in the one group
keyed by the missing value (`None`); if a week has exactly two such records
they are rendered together as a head-to-head matchup. -/
theorem missing_matchup_id_shared_group (data : List MatchupRec)
    (r1 r2 : MatchupRec)
    (h : data.filter (fun m => m.matchup_id == none) = [r1, r2]) :
    lookupGroup (matchups_by_id data) none = some [r1, r2] ∧
    (r1, r2) ∈ show_matchups_pairs data := by
  have hl : lookupGroup (matchups_by_id data) none = some [r1, r2] := by
    rw [lookupGroup_matchups_by_id, h]
    rfl
  exact ⟨hl, mem_renderGroups _ none r1 r2 (mem_of_lookupGroup _ _ _ hl)⟩

/-- A concrete week with exactly two records lacking a `matchup_id`. -/
def weekTwoOrphans : List MatchupRec :=
  [⟨1, none⟩, ⟨2, some 5⟩, ⟨3, some 5⟩, ⟨4, none⟩]

/-- C10 witness: in `weekTwoOrphans`, the two unrelated records without a
`matchup_id` are paired and rendered together. -/
theorem missing_matchup_id_shared_group_witness :
    lookupGroup (matchups_by_id weekTwoOrphans) none =
      some [⟨1, none⟩, ⟨4, none⟩] ∧
    ((⟨1, none⟩ : MatchupRec), (⟨4, none⟩ : MatchupRec)) ∈
      show_matchups_pairs weekTwoOrphans :=
  missing_matchup_id_shared_group weekTwoOrphans ⟨1, none⟩ ⟨4, none⟩ (by decide)

/-! ### Player-name formatting -/

/-- Taking the first character of a nonempty string gives a nonempty
string. -/
theorem str1_ne_empty (s : String) (h : s ≠ "") : str1 s ≠ "" := by
  cases s with
  | mk data =>
    cases data with
    | nil => exact absurd rfl h
    | cons c cs => simp [str1, String.ext_iff]

/-- C4 (amended): `show_matchups`' `format_player_name`. A directory entry
with non-empty first and last names renders `"<position>: <initial>. <last>"`;
a directory entry *missing either name* renders the raw id (the length-≤3
defense heuristic is NOT consulted for ids present in the directory); an id
absent from the directory renders `"D/ST: <id>"` when its length is at most
3 and the raw id otherwise. -/
theorem format_player_name_spec (pd : String → Option Player) (pid : String) :
    (∀ p, pd pid = some p → p.first_name ≠ "" → p.last_name ≠ "" →
      format_player_name pd pid =
        p.position ++ ": " ++ str1 p.first_name ++ ". " ++ p.last_name) ∧
    (∀ p, pd pid = some p → (p.first_name = "" ∨ p.last_name = "") →
      format_player_name pd pid = pid) ∧
    (pd pid = none → pid.length ≤ 3 →
      format_player_name pd pid = "D/ST: " ++ pid) ∧
    (pd pid = none → 3 < pid.length →
      format_player_name pd pid = pid) := by
  refine ⟨?_, ?_, ?_, ?_⟩
  · intro p hp hf hl
    have h1 : str1 p.first_name ≠ "" := str1_ne_empty _ hf
    simp [format_player_name, hp, hf, hl, h1]
  · intro p hp hor
    rcases hor with h | h
    · simp [format_player_name, hp, h]
    · simp [format_player_name, hp, h]
  · intro hn hlen
    simp [format_player_name, hn, hlen]
  · intro hn hlen
    simp [format_player_name, hn, Nat.not_le.mpr hlen]

/-- A player directory holding only Patrick Mahomes under id `"4017"`. -/
def pdQB : String → Option Player :=
  fun s => if s = "4017" then some ⟨"Patrick", "Mahomes", "QB"⟩ else none

/-- C4 witness: Mahomes renders `"QB: P. Mahomes"`; absent short and long
ids take the defense / raw branches. -/
theorem format_player_name_spec_witness :
    format_player_name pdQB "4017" = "QB: P. Mahomes" ∧
    format_player_name pdQB "KC" = "D/ST: KC" ∧
    format_player_name pdQB "9999" = "9999" :=
  ⟨((format_player_name_spec pdQB "4017").1 ⟨"Patrick", "Mahomes", "QB"⟩
      (by rfl) (by decide) (by decide)).trans (by decide),
   (format_player_name_spec pdQB "KC").2.2.1 (by rfl) (by decide),
   (format_player_name_spec pdQB "9999").2.2.2 (by rfl) (by decide)⟩

/-- A player directory with a directory entry for `"KC"` whose last name is
empty. -/
def pdKC : String → Option Player :=
  fun s => if s = "KC" then some ⟨"Kansas City", "", "DEF"⟩ else none

/-- C4 counterexample: the claim routes any id without a full directory name
of length ≤ 3 to the `"D/ST: "` branch, but the code returns the raw id for
ids *present* in the directory with a missing name: `"KC"`, present with an
empty last name and of length ≤ 3, renders `"KC"`, not `"D/ST: KC"`. -/
theorem format_player_name_counterexample :
    pdKC "KC" = some ⟨"Kansas City", "", "DEF"⟩ ∧
    "KC".length ≤ 3 ∧
    format_player_name pdKC "KC" = "KC" ∧
    format_player_name pdKC "KC" ≠ "D/ST: KC" :=
  ⟨rfl, by decide, by decide, by decide⟩

/-- The cached player directory of the C3 scenario: only `"4046"` (Travis
Kelce, TE) is present. -/
def pdKelce : String → Option Player :=
  fun s => if s = "4046" then some ⟨"Travis", "Kelce", "TE"⟩ else none

/-- C3 counterexample: the roster view's formatter adds no position prefix
and has no defense branch, so the claimed renderings `"TE: T. Kelce"` and
`"D/ST: KC"` do not occur anywhere in the rendered list (not even
reordered). -/
theorem show_rosters_names_counterexample :
    roster_player_names pdKelce ["4046", "KC", "9999"] =
      ["T. Kelce", "KC", "9999"] ∧
    "TE: T. Kelce" ∉ roster_player_names pdKelce ["4046", "KC", "9999"] ∧
    "D/ST: KC" ∉ roster_player_names pdKelce ["4046", "KC", "9999"] :=
  ⟨by decide, by decide, by decide⟩

/-- C3 (amended): for the cached roster owning `["4046", "KC", "9999"]` with
only `"4046"` resolving in the directory, the roster view renders the names
`["T. Kelce", "KC", "9999"]` — initial-dot-last for resolved players, the
raw id for everything else. -/
theorem show_rosters_names_spec :
    roster_player_names pdKelce ["4046", "KC", "9999"] =
      ["T. Kelce", "KC", "9999"] := by
  decide

/-! ### League discovery -/

/-- The lowercased-substring test the code performs is exactly
case-insensitive substring containment: some contiguous run of the name
equals the query up to case. -/
theorem strIn_lower_iff_specNameMatch (query name : String) :
    strIn (lowerStr query) (lowerStr name) = true ↔ specNameMatch query name := by
  simp only [strIn, lowerStr, decide_eq_true_eq]
  constructor
  · intro h
    obtain ⟨s, t, hst⟩ := h
    have hmap : name.data.map Char.toLower =
        s ++ (query.data.map Char.toLower ++ t) := by
      rw [← hst]
      simp [List.append_assoc]
    obtain ⟨l₁, l₂, hsplit, hmap₁, hmap₂⟩ := List.map_eq_append_iff.mp hmap
    obtain ⟨l₂₁, l₂₂, hsplit₂, hmap₂₁, hmap₂₂⟩ := List.map_eq_append_iff.mp hmap₂
    refine ⟨l₂₁, ⟨l₁, l₂₂, ?_⟩, hmap₂₁⟩
    rw [hsplit, hsplit₂]
    simp [List.append_assoc]
  · rintro ⟨t, hinf, heq⟩
    have := hinf.map Char.toLower
    rwa [heq] at this

/-- C6: league discovery returns exactly the leagues whose name contains the
query as a case-insensitive substring, in API order (the result is a sublist
of the input); zero matches yield the normal `noMatches` report, not an
error. -/
theorem search_leagues_spec (leagues : List League) (q : String) :
    (∀ found, search_leagues_filter leagues q = .results found →
      found = leagues.filter (fun lg => strIn (lowerStr q) (lowerStr lg.name)) ∧
      found.Sublist leagues ∧ found ≠ []) ∧
    (search_leagues_filter leagues q = .noMatches ↔
      ∀ lg ∈ leagues, ¬ specNameMatch q lg.name) ∧
    (∀ lg : League,
      strIn (lowerStr q) (lowerStr lg.name) = true ↔ specNameMatch q lg.name) := by
  refine ⟨?_, ?_, fun lg => strIn_lower_iff_specNameMatch q lg.name⟩
  · intro found hres
    simp only [search_leagues_filter] at hres
    cases he : (leagues.filter
        (fun lg => strIn (lowerStr q) (lowerStr lg.name))).isEmpty
    · rw [he] at hres
      simp only [Bool.false_eq_true, if_false, SearchOutcome.results.injEq] at hres
      subst hres
      refine ⟨rfl, List.filter_sublist _, ?_⟩
      intro hnil
      rw [hnil] at he
      simp at he
    · rw [he] at hres
      simp at hres
  · simp only [search_leagues_filter]
    cases he : (leagues.filter
        (fun lg => strIn (lowerStr q) (lowerStr lg.name))).isEmpty
    · simp only [Bool.false_eq_true, if_false]
      constructor
      · intro h
        simp at h
      · intro h
        exfalso
        rw [List.isEmpty_eq_false_iff_exists_mem] at he
        obtain ⟨lg, hmem⟩ := he
        have := List.of_mem_filter hmem
        exact h lg (List.mem_of_mem_filter hmem)
          ((strIn_lower_iff_specNameMatch q lg.name).mp this)
    · rw [if_pos rfl]
      constructor
      · intro _ lg hmem hspec
        rw [List.isEmpty_iff] at he
        have : strIn (lowerStr q) (lowerStr lg.name) = true :=
          (strIn_lower_iff_specNameMatch q lg.name).mpr hspec
        have : lg ∈ leagues.filter
            (fun lg => strIn (lowerStr q) (lowerStr lg.name)) :=
          List.mem_filter.mpr ⟨hmem, this⟩
        rw [he] at this
        simp at this
      · intro _
        rfl

/-- C6 witness: query `"dynasty"` finds `"2024 Dynasty League"` but not
`"2024 Keeper League"`, and its name is a genuine case-insensitive match. -/
theorem search_leagues_spec_witness :
    (([⟨"2024 Dynasty League"⟩] : List League) =
      ([⟨"2024 Dynasty League"⟩, ⟨"2024 Keeper League"⟩] : List League).filter
        (fun lg => strIn (lowerStr "dynasty") (lowerStr lg.name)) ∧
      ([⟨"2024 Dynasty League"⟩] : List League).Sublist
        [⟨"2024 Dynasty League"⟩, ⟨"2024 Keeper League"⟩] ∧
      ([⟨"2024 Dynasty League"⟩] : List League) ≠ []) ∧
    specNameMatch "dynasty" "2024 Dynasty League" :=
  ⟨(search_leagues_spec [⟨"2024 Dynasty League"⟩, ⟨"2024 Keeper League"⟩]
      "dynasty").1 [⟨"2024 Dynasty League"⟩] (by decide),
   ((search_leagues_spec [⟨"2024 Dynasty League"⟩, ⟨"2024 Keeper League"⟩]
      "dynasty").2.2 ⟨"2024 Dynasty League"⟩).mp (by decide)⟩

end Sleeper
